import Mathlib

/-!
# Shallow embedding of the plugin resolution/dispatch layer

Source: `app/api/router_plugins.py` (Resolver `_get_plugin_instance`,
Enumerator `_iter_plugin_instances`, direct construction
`_instantiate_direct`, descriptor extraction `_serialize_meta`, and the
HTTP endpoints `list_plugins`, `get_plugin`, `run_plugin_task`), and the
lazy-proxy plugin classes `app/plugins/text_tools/plugin.py` /
`app/plugins/pdf_reader/plugin.py`.

The loader collaborator module `app.plugins.loader` is duck-typed and not
part of the repository sources; following the spec (§6 "Collaborator
interface consumed from the Loader") it is modelled as an abstract record of
optional, possibly-raising capabilities.  Python exceptions are modelled
explicitly as outcome constructors; `async` handlers are modelled uniformly
with synchronous ones, as the dispatcher only awaits and otherwise treats
them identically.
-/

set_option autoImplicit false

namespace RouterPlugins

/-- JSON-like values: the payloads and results flowing through dispatch. -/
inductive Json where
  | null
  | bool (b : Bool)
  | num (n : Int)
  | str (s : String)
  | arr (xs : List Json)
  | obj (kvs : List (String × Json))
  deriving Repr, BEq

/-- A JSON body payload, Python `dict[str, Any]` (insertion-ordered). -/
abbrev Payload := List (String × Json)

/-- First-match association lookup, the model of Python `k in d` / `d[k]`. -/
def lookupKey (p : Payload) (k : String) : Option Json :=
  match p with
  | [] => none
  | (k1, v) :: rest => if k1 = k then some v else lookupKey rest k

/-- `dict.setdefault k v`: leave the dict unchanged when `k` is present,
otherwise append `(k, v)` at the end (Python insertion order). -/
def setdefault (p : Payload) (k : String) (v : Json) : Payload :=
  match lookupKey p k with
  | some _ => p
  | none => p ++ [(k, v)]

/-- Outcome of invoking a Python callable with one payload argument:
normal return, a raised `HTTPException(status, detail)`, or any other
raised exception carrying its `str(e)` message. -/
inductive ExecResult where
  | ok (r : Json)
  | httpExn (status : Nat) (detail : String)
  | exn (msg : String)
  deriving Repr, BEq

/-- Result of `getattr(instance, name, None)` for dispatch purposes:
attribute missing, present but not callable, or a callable handler. -/
inductive Attr where
  | absent
  | nonCallable
  | callable (f : Payload → ExecResult)

/-- The shape of an instance's `tasks` attribute as the descriptor reader
sees it: missing, a `list`/`tuple`/`set` of strings, or some other type. -/
inductive TasksField where
  | absent
  | seq (ts : List String)
  | other
  deriving Repr, BEq

/-- A live plugin instance (duck-typed Python object).  `className` is
`type(obj).__name__`; `nameF`, `provider`, `tasksF` are the metadata
attributes; `attrs` is attribute lookup for task dispatch. -/
structure Instance where
  className : String
  nameF : Option String
  provider : Option String
  tasksF : TasksField
  attrs : String → Attr

/-- The serialized `PluginMeta` record. -/
structure PluginMeta where
  name : String
  provider : Option String
  tasks : List String
  deriving Repr, BEq

/-- `getattr(plugin, "name", None) or type(plugin).__name__`: a missing or
falsy (empty) `name` falls back to the runtime class name. -/
def serializedName (i : Instance) : String :=
  match i.nameF with
  | some s => if s = "" then i.className else s
  | none => i.className

/-- `_serialize_meta`: project an instance into a `PluginMeta`; a `tasks`
attribute that is not a sequence/set yields the empty list. -/
def _serialize_meta (i : Instance) : PluginMeta :=
  { name := serializedName i
    provider := i.provider
    tasks := match i.tasksF with
      | .seq ts => ts
      | _ => [] }

/-! ## The loader collaborator and the plugin-module environment -/

/-- Outcome of calling a loader lookup function on one name:
it raised, returned `None`, or returned an instance. -/
inductive LookupOutcome where
  | raises
  | nothing
  | found (i : Instance)

/-- One of the loader's by-name lookup attributes
(`get_plugin_instance`, `load_plugin`, `get`, `resolve_plugin`):
missing/not callable, or a callable of one name. -/
inductive LookupSlot where
  | absent
  | fn (f : String → LookupOutcome)

/-- One of the loader's registry attributes
(`REGISTRY`, `PLUGINS`, `plugins`, `registry`): missing, a `dict`
from name to instance, a `list`/`tuple` of instances, or a value of
some other type. -/
inductive RegistrySlot where
  | absent
  | dict (m : List (String × Instance))
  | list (xs : List Instance)
  | other

/-- What one of the loader's catalog factory functions returns when
called: it raised, returned a `dict`, returned a `list`/`tuple`/`set`,
returned some other truthy iterable, or returned a falsy value. -/
inductive FactoryResult where
  | raises
  | dict (m : List (String × Instance))
  | list (xs : List Instance)
  | iterTruthy (xs : List Instance)
  | falsy

/-- One of the loader's catalog factory attributes
(`get_available_plugins`, `list_available_plugins`, `available_plugins`,
`get_plugins`, `iter_plugins`): missing/not callable, or callable. -/
inductive FactorySlot where
  | absent
  | fn (r : FactoryResult)

/-- One of the loader's name-listing attributes (`get_plugin_names`,
`list_plugin_names`, `available_plugin_names`): missing/not callable,
callable but raising, or returning a list of names. -/
inductive NamesSlot where
  | absent
  | fnRaises
  | fn (ns : List String)

/-- The loader module `app.plugins.loader` as the router observes it,
one field per probed attribute name.  Best-effort init
(`ensure_plugins_loaded`, ... in `_loader_module`) is applied before any
attribute is read and swallows its failures, so the fields here are the
post-init state. -/
structure Loader where
  get_plugin_instance : LookupSlot
  load_plugin : LookupSlot
  get : LookupSlot
  resolve_plugin : LookupSlot
  REGISTRY : RegistrySlot
  PLUGINS : RegistrySlot
  plugins : RegistrySlot
  registry : RegistrySlot
  get_available_plugins : FactorySlot
  list_available_plugins : FactorySlot
  available_plugins : FactorySlot
  get_plugins : FactorySlot
  iter_plugins : FactorySlot
  get_plugin_names : NamesSlot
  list_plugin_names : NamesSlot
  available_plugin_names : NamesSlot

/-- A plugin constructed by `Plugin()` in a plugin module: the fresh
instance, and the observable instance state after `inst.load()` when a
callable `load` exists (`none` when it does not; a raising `load` is
swallowed by `_instantiate_direct`, so only the resulting state matters). -/
structure ConstructedPlugin where
  initial : Instance
  loadHook : Option Instance

/-- The conventionally named `Plugin` class of a plugin module;
`construct = none` models `Plugin()` raising. -/
structure PluginClass where
  construct : Option ConstructedPlugin

/-- A module `app.plugins.<name>.plugin`; `pluginCls = none` models a
module without a `Plugin` attribute. -/
structure PluginModule where
  pluginCls : Option PluginClass

/-- The world the router runs in: the loader module's state and the
importable plugin modules (`modules n = none` models
`importlib.import_module` raising for `app.plugins.<n>.plugin`). -/
structure Env where
  loader : Loader
  modules : String → Option PluginModule

/-! ## Resolver: `_get_plugin_instance` and `_instantiate_direct` -/

/-- One by-name lookup attempt inside `_get_plugin_instance`: a raised
exception and a `None` return both mean "try the next strategy". -/
def tryLookup (slot : LookupSlot) (name : String) : Option Instance :=
  match slot with
  | .absent => none
  | .fn f =>
    match f name with
    | .found i => some i
    | .raises => none
    | .nothing => none

/-- First-match lookup in a dict-of-instances model. -/
def lookupInst (m : List (String × Instance)) (k : String) : Option Instance :=
  match m with
  | [] => none
  | (k1, v) :: rest => if k1 = k then some v else lookupInst rest k

/-- One registry attempt inside `_get_plugin_instance`: only `dict`
registries are consulted (`isinstance(reg, dict) and name in reg`);
list registries are never scanned during resolution. -/
def regLookup (slot : RegistrySlot) (name : String) : Option Instance :=
  match slot with
  | .dict m => lookupInst m name
  | _ => none

/-- `_instantiate_direct`: import `app.plugins.<name>.plugin`, build
`Plugin()`, call `load()` if present (failures swallowed), and assign
`name` when the instance's `name` attribute is absent or falsy.
Every failing step yields `none`. -/
def _instantiate_direct (env : Env) (name : String) : Option Instance :=
  match env.modules name with
  | none => none
  | some mod =>
    match mod.pluginCls with
    | none => none
    | some cls =>
      match cls.construct with
      | none => none
      | some c =>
        let inst :=
          match c.loadHook with
          | some after => after
          | none => c.initial
        if inst.nameF = none ∨ inst.nameF = some "" then
          some { inst with nameF := some name }
        else
          some inst

/-- `_get_plugin_instance`: by-name lookup functions in their probe
order, then dict registries in their probe order, then direct
construction. -/
def _get_plugin_instance (env : Env) (name : String) : Option Instance :=
  tryLookup env.loader.get_plugin_instance name <|>
  tryLookup env.loader.load_plugin name <|>
  tryLookup env.loader.get name <|>
  tryLookup env.loader.resolve_plugin name <|>
  regLookup env.loader.REGISTRY name <|>
  regLookup env.loader.PLUGINS name <|>
  regLookup env.loader.plugins name <|>
  regLookup env.loader.registry name <|>
  _instantiate_direct env name

/-! ## Enumerator: `_iter_plugin_instances` -/

/-- One catalog factory attempt.  A `dict` return yields its values and a
`list`/`tuple`/`set` return is yielded as-is, in both cases *even when
empty*; any other return is yielded only when truthy; a raised exception
or a falsy non-collection moves on to the next factory name. -/
def tryFactory (slot : FactorySlot) : Option (List Instance) :=
  match slot with
  | .absent => none
  | .fn r =>
    match r with
    | .raises => none
    | .dict m => some (m.map Prod.snd)
    | .list xs => some xs
    | .iterTruthy xs => some xs
    | .falsy => none

/-- One registry attempt during enumeration: a *non-empty* `dict` yields
its values, a *non-empty* `list`/`tuple` is yielded as-is; empty or
other-shaped registries move on. -/
def tryRegistryEnum (slot : RegistrySlot) : Option (List Instance) :=
  match slot with
  | .dict m => if m.isEmpty then none else some (m.map Prod.snd)
  | .list xs => if xs.isEmpty then none else some xs
  | _ => none

/-- Consuming `filter(None, (get_inst(n) for n in names))`: `None`
lookups are dropped, found instances kept; the generator is lazy, so a
lookup that raises does so only at consumption time, outside the
enumerator's `try` — modelled as `Except.error`. -/
def consumeNames (f : String → LookupOutcome) : List String → Except Unit (List Instance)
  | [] => .ok []
  | n :: rest =>
    match f n with
    | .raises => .error ()
    | .nothing => consumeNames f rest
    | .found i => (consumeNames f rest).map (i :: ·)

/-- One name-listing attempt: needs a callable that returns a truthy
(non-empty) name list *and* a callable `get_plugin_instance`; otherwise
the chain moves on. -/
def tryNames (gpi : LookupSlot) (slot : NamesSlot) : Option (Except Unit (List Instance)) :=
  match slot with
  | .absent => none
  | .fnRaises => none
  | .fn ns =>
    if ns = [] then none
    else
      match gpi with
      | .fn f => some (consumeNames f ns)
      | .absent => none

/-- `_iter_plugin_instances`: five catalog factories in probe order, then
four registry attributes, then three name-listing functions combined with
`get_plugin_instance`; if nothing is returned the inventory is `()`.
The result is `Except` because a name-listing generator can raise at
consumption time in the endpoint. -/
def _iter_plugin_instances (env : Env) : Except Unit (List Instance) :=
  match tryFactory env.loader.get_available_plugins <|>
        tryFactory env.loader.list_available_plugins <|>
        tryFactory env.loader.available_plugins <|>
        tryFactory env.loader.get_plugins <|>
        tryFactory env.loader.iter_plugins with
  | some xs => .ok xs
  | none =>
  match tryRegistryEnum env.loader.REGISTRY <|>
        tryRegistryEnum env.loader.PLUGINS <|>
        tryRegistryEnum env.loader.plugins <|>
        tryRegistryEnum env.loader.registry with
  | some xs => .ok xs
  | none =>
  match tryNames env.loader.get_plugin_instance env.loader.get_plugin_names <|>
        tryNames env.loader.get_plugin_instance env.loader.list_plugin_names <|>
        tryNames env.loader.get_plugin_instance env.loader.available_plugin_names with
  | some r => r
  | none => .ok []

/-! ## Endpoints -/

/-- Outcome at the HTTP boundary: a JSON response body, or an
`HTTPException(status, detail)` rendered by the framework. -/
inductive HttpOutcome where
  | success (body : Json)
  | httpError (status : Nat) (detail : String)
  deriving Repr, BEq

/-- `GET /plugins`: serialize every enumerated instance, in order,
without de-duplication. -/
def list_plugins (env : Env) : Except Unit (List PluginMeta) :=
  (_iter_plugin_instances env).map (List.map _serialize_meta)

/-- Result of `GET /plugins/{name}`. -/
inductive GetPluginResult where
  | found (meta : PluginMeta)
  | notFound (status : Nat) (detail : String)
  deriving Repr, BEq

/-- `GET /plugins/{name}`: scan the *enumeration* inventory for the first
instance whose serialized name matches; 404 otherwise.  (Resolution's
direct-construction fallback is never consulted here.) -/
def get_plugin (env : Env) (name : String) : Except Unit GetPluginResult :=
  match _iter_plugin_instances env with
  | .error e => .error e
  | .ok xs =>
    match xs.find? (fun i => (_serialize_meta i).name = name) with
    | some i => .ok (.found (_serialize_meta i))
    | none => .ok (.notFound 404 ("Plugin not found: " ++ name))

/-- The success body `{"plugin": name, "task": task, "result": r}`. -/
def responseBody (name task : String) (r : Json) : Json :=
  .obj [("plugin", .str name), ("task", .str task), ("result", r)]

/-- The `available` list shown by the 404 task-not-found detail:
`list(declared_tasks)` when `tasks` is a sequence/set, else `[]`,
replaced by `["<none>"]` when empty. -/
def availableTasks (i : Instance) : List String :=
  let declared := match i.tasksF with
    | .seq ts => ts
    | _ => []
  if declared = [] then ["<none>"] else declared

/-- Python `repr` of a list of strings, as interpolated into f-strings. -/
def pyReprList (ts : List String) : String :=
  "[" ++ String.intercalate ", " (ts.map (fun t => "'" ++ t ++ "'")) ++ "]"

/-- `POST /plugins/{name}/{task}` (`run_plugin_task`): resolve the plugin
(404 on failure); invoke the attribute named `task` if callable, else fall
back to a callable `infer` with the task name injected via `setdefault`;
wrap normal returns as `{"plugin", "task", "result"}`; re-raise
`HTTPException`s unchanged; convert any other exception to a 500 whose
detail carries the original message; 404 with the declared tasks when
neither handler exists. -/
def run_plugin_task (env : Env) (name task : String) (payload : Payload) : HttpOutcome :=
  match _get_plugin_instance env name with
  | none => .httpError 404 ("Plugin not found: " ++ name)
  | some plugin =>
    match plugin.attrs task with
    | .callable f =>
      (match f payload with
       | .ok r => .success (responseBody name task r)
       | .httpExn s d => .httpError s d
       | .exn msg => .httpError 500 ("Task '" ++ task ++ "' failed: " ++ msg))
    | _ =>
      match plugin.attrs "infer" with
      | .callable f =>
        (match f (setdefault payload "task" (.str task)) with
         | .ok r => .success (responseBody name task r)
         | .httpExn s d => .httpError s d
         | .exn msg => .httpError 500 ("Infer for '" ++ task ++ "' failed: " ++ msg))
      | _ =>
        .httpError 404 ("Task '" ++ task ++ "' not found in plugin '" ++ name ++
          "'. Available: " ++ pyReprList (availableTasks plugin))

/-! ## Lazy proxy plugins

`app/plugins/text_tools/plugin.py` and `app/plugins/pdf_reader/plugin.py`
define the same `Plugin` class shape (differing only in the static `name`
and `tasks` values): a cheap facade that imports and constructs the heavy
`app.services.<x>.service.Plugin` implementation on first `load()`, and a
`__getattr__` that turns any declared task name into a bound callable
forwarding to that implementation. -/

/-- The backing service implementation object
(`app.services.<x>.service.Plugin` instance): its `tasks` attribute shape,
whether it has a `load` attribute, and its task methods. -/
structure ServiceImpl where
  tasksF : TasksField
  hasLoad : Bool
  run : String → Payload → ExecResult

/-- The backing service module: `init` is the freshly constructed
`Impl()`, `loaded` the state of that object after `Impl().load()` (only
relevant when `init.hasLoad`). -/
structure ServiceModule where
  init : ServiceImpl
  loaded : ServiceImpl

/-- The lazy proxy `Plugin` object's mutable state: its `name`, its
`tasks` list, its `_impl` slot, and a ghost counter of how many times the
backing implementation has been constructed (the spec's observable
construction counter). -/
structure LazyProxy where
  name : String
  tasks : List String
  impl : Option ServiceImpl
  constructCount : Nat

/-- `Plugin.load`: a no-op when `_impl` is already set; otherwise
construct the implementation, call its `load()` if present, and — only
when the proxy's own `tasks` is empty — adopt the implementation's
`tasks` when that attribute is a sequence/set (a missing attribute reads
as `[]`, which leaves the empty list empty). -/
def LazyProxy.load (s : LazyProxy) (svc : ServiceModule) : LazyProxy :=
  match s.impl with
  | some _ => s
  | none =>
    let impl := if svc.init.hasLoad then svc.loaded else svc.init
    let tasks :=
      if s.tasks.isEmpty then
        match impl.tasksF with
        | .seq ts => ts
        | _ => s.tasks
      else s.tasks
    { name := s.name, tasks := tasks, impl := some impl
      constructCount := s.constructCount + 1 }

/-- The implementation object `self._impl` reads as after `self.load()`:
the already-constructed one, or the one `load` is about to construct. -/
def loadedImpl (svc : ServiceModule) (s : LazyProxy) : ServiceImpl :=
  match s.impl with
  | some impl => impl
  | none => if svc.init.hasLoad then svc.loaded else svc.init

/-- `getattr(self._impl, item)` when `_impl` could still be `None`: on a
`None` implementation any method access raises. -/
def implOrNone : Option ServiceImpl → ServiceImpl
  | some impl => impl
  | none =>
    { tasksF := .absent, hasLoad := false
      run := fun _ _ => .exn "AttributeError" }

/-- `Plugin.__getattr__` composed with calling the returned closure on a
payload: a declared task name yields `self.load()` followed by the
forwarded call on the (now constructed) implementation; any other name
raises `AttributeError(item)` (the `Except.error`). -/
def LazyProxy.callTask (s : LazyProxy) (svc : ServiceModule) (item : String)
    (p : Payload) : Except String (LazyProxy × ExecResult) :=
  if item ∈ s.tasks then
    let s2 := s.load svc
    .ok (s2, (implOrNone s2.impl).run item p)
  else .error item

/-- `Plugin.load` called `k` times in sequence. -/
def loadIter (svc : ServiceModule) : Nat → LazyProxy → LazyProxy
  | 0, s => s
  | k + 1, s => loadIter svc k (s.load svc)

/-! ## Test fixtures: concrete loader states and instances -/

/-- `true` exactly on a `callable` attribute. -/
def Attr.isCallable : Attr → Bool
  | .callable _ => true
  | _ => false

/-- A loader module exposing none of the probed attributes. -/
def emptyLoader : Loader where
  get_plugin_instance := .absent
  load_plugin := .absent
  get := .absent
  resolve_plugin := .absent
  REGISTRY := .absent
  PLUGINS := .absent
  plugins := .absent
  registry := .absent
  get_available_plugins := .absent
  list_available_plugins := .absent
  available_plugins := .absent
  get_plugins := .absent
  iter_plugins := .absent
  get_plugin_names := .absent
  list_plugin_names := .absent
  available_plugin_names := .absent

/-- No importable `app.plugins.<n>.plugin` modules. -/
def noModules : String → Option PluginModule := fun _ => none

/-- A handler that returns the string `"done"`. -/
def echoHandler : Payload → ExecResult := fun _ => .ok (.str "done")

/-- A plugin instance named `alpha` exposing one task, `echo`. -/
def instEcho : Instance where
  className := "Plugin"
  nameF := some "alpha"
  provider := some "local"
  tasksF := .seq ["echo"]
  attrs := fun item => if item = "echo" then .callable echoHandler else .absent

/-- A loader resolving every name to `instEcho` via `get_plugin_instance`. -/
def envEcho : Env :=
  { loader := { emptyLoader with get_plugin_instance := .fn fun _ => .found instEcho }
    modules := noModules }

/-- A plugin instance whose `boom` task raises and whose `infer` raises. -/
def instBoom : Instance where
  className := "Plugin"
  nameF := some "alpha"
  provider := none
  tasksF := .seq ["boom"]
  attrs := fun item =>
    if item = "boom" then .callable fun _ => .exn "kaput"
    else if item = "infer" then .callable fun _ => .exn "kaput"
    else .absent

/-- A loader resolving every name to `instBoom`. -/
def envBoom : Env :=
  { loader := { emptyLoader with get_plugin_instance := .fn fun _ => .found instBoom }
    modules := noModules }

/-! ## Claim theorems -/

/-- **C1.** For every plugin instance resolved for name `n`, every task
name `t` whose attribute on the instance is callable, and every payload
`p`: dispatch invokes that handler with exactly `p` as its sole argument
and, on normal return `r`, responds with
`{"plugin": n, "task": t, "result": r}`. -/
theorem named_task_dispatch_success (env : Env) (n t : String) (inst : Instance)
    (f : Payload → ExecResult) (p : Payload) (r : Json)
    (hres : _get_plugin_instance env n = some inst)
    (hattr : inst.attrs t = .callable f)
    (hok : f p = .ok r) :
    run_plugin_task env n t p = .success (responseBody n t r) := by
  simp [run_plugin_task, hres, hattr, hok]

/-- Witness for **C1** at a concrete loader state, name, task, payload. -/
theorem named_task_dispatch_success_witness :
    run_plugin_task envEcho "alpha" "echo" [("x", .num 1)] =
      .success (responseBody "alpha" "echo" (.str "done")) :=
  named_task_dispatch_success envEcho "alpha" "echo" instEcho echoHandler
    [("x", .num 1)] (.str "done") rfl rfl rfl

/-- **C2.** Whenever the invoked handler (named task handler, or the
`infer` fallback when no callable named handler exists) raises, an already
structured `HTTPException` passes through unchanged, and any other raised
failure becomes a 500 whose detail is `Task '{t}' failed: {msg}` for a
named handler and `Infer for '{t}' failed: {msg}` for the fallback. -/
theorem dispatch_error_normalization (env : Env) (n t : String) (p : Payload)
    (inst : Instance) (hres : _get_plugin_instance env n = some inst) :
    (∀ f s d, inst.attrs t = .callable f → f p = .httpExn s d →
        run_plugin_task env n t p = .httpError s d) ∧
    (∀ f msg, inst.attrs t = .callable f → f p = .exn msg →
        run_plugin_task env n t p =
          .httpError 500 ("Task '" ++ t ++ "' failed: " ++ msg)) ∧
    ((inst.attrs t).isCallable = false →
      ∀ f, inst.attrs "infer" = .callable f →
        (∀ s d, f (setdefault p "task" (.str t)) = .httpExn s d →
            run_plugin_task env n t p = .httpError s d) ∧
        (∀ msg, f (setdefault p "task" (.str t)) = .exn msg →
            run_plugin_task env n t p =
              .httpError 500 ("Infer for '" ++ t ++ "' failed: " ++ msg))) := by
  refine ⟨?_, ?_, ?_⟩
  · intro f s d hattr hexn
    simp [run_plugin_task, hres, hattr, hexn]
  · intro f msg hattr hexn
    simp [run_plugin_task, hres, hattr, hexn]
  · intro hnc f hinf
    constructor
    · intro s d hexn
      cases hattr : inst.attrs t with
      | callable g => rw [hattr] at hnc; simp [Attr.isCallable] at hnc
      | absent => simp [run_plugin_task, hres, hattr, hinf, hexn]
      | nonCallable => simp [run_plugin_task, hres, hattr, hinf, hexn]
    · intro msg hexn
      cases hattr : inst.attrs t with
      | callable g => rw [hattr] at hnc; simp [Attr.isCallable] at hnc
      | absent => simp [run_plugin_task, hres, hattr, hinf, hexn]
      | nonCallable => simp [run_plugin_task, hres, hattr, hinf, hexn]

/-- Witness for **C2** at a concrete loader state: a named handler that
raises yields the 500 with the original message. -/
theorem dispatch_error_normalization_witness :
    run_plugin_task envBoom "alpha" "boom" [] =
      .httpError 500 ("Task '" ++ "boom" ++ "' failed: " ++ "kaput") :=
  (dispatch_error_normalization envBoom "alpha" "boom" [] instBoom rfl).2.1
    (fun _ => .exn "kaput") "kaput" rfl rfl

/-! ## Resolver strategy order (C3, C4) -/

/-- First non-`none` entry of a list of strategy outcomes. -/
def firstSome : List (Option Instance) → Option Instance
  | [] => none
  | o :: rest => o <|> firstSome rest

/-- The resolver's discovery strategies in their attempt order: the four
by-name lookup functions, the four registry attributes, then direct
construction. -/
def strategyList (env : Env) (n : String) : List (Option Instance) :=
  [tryLookup env.loader.get_plugin_instance n,
   tryLookup env.loader.load_plugin n,
   tryLookup env.loader.get n,
   tryLookup env.loader.resolve_plugin n,
   regLookup env.loader.REGISTRY n,
   regLookup env.loader.PLUGINS n,
   regLookup env.loader.plugins n,
   regLookup env.loader.registry n,
   _instantiate_direct env n]

/-- The instance state after `_instantiate_direct`'s best-effort
`load()` call: the post-`load` state when a callable `load` exists,
the freshly constructed state otherwise. -/
def postLoad (c : ConstructedPlugin) : Instance :=
  match c.loadHook with
  | some after => after
  | none => c.initial

/-- `if not getattr(inst, "name", None): inst.name = name`: assign the
requested name when the `name` attribute is absent or falsy (empty). -/
def assignNameIfFalsy (n : String) (i : Instance) : Instance :=
  if i.nameF = none ∨ i.nameF = some "" then { i with nameF := some n } else i

/-- An instance registered only in a list-shaped registry. -/
def instListed : Instance where
  className := "Plugin"
  nameF := some "listed"
  provider := none
  tasksF := .seq ["echo"]
  attrs := fun item => if item = "echo" then .callable echoHandler else .absent

/-- A loader whose only inventory is a list-shaped `PLUGINS` registry. -/
def envListReg : Env :=
  { loader := { emptyLoader with PLUGINS := .list [instListed] }
    modules := noModules }

/-- **C3 counterexample.** A loader state whose registry is an ordered
collection containing an instance whose descriptor name is `listed`, yet
resolution of `listed` yields NotFound: the resolver never scans
list-shaped registries, contrary to the claim's strategy (2). -/
theorem resolver_ignores_list_registries :
    envListReg.loader.PLUGINS = .list [instListed] ∧
    serializedName instListed = "listed" ∧
    _get_plugin_instance envListReg "listed" = none :=
  ⟨rfl, rfl, rfl⟩

/-- **C3 (amended).** `resolve(n)` attempts the strategies strictly in
order, stopping at the first non-null result: (1) the by-name lookup
synonyms; (2) registry containers, where only a *mapping* from name to
instance is consulted (an ordered collection bound to a registry
attribute is ignored by resolution); (3) direct construction, which
imports the module derived from `n`, builds its `Plugin` class with no
arguments, invokes its `load()` hook if present, and assigns `n` as the
instance's name when that field is absent (or falsy). -/
theorem resolution_strategy_order (env : Env) (n : String) :
    _get_plugin_instance env n = firstSome (strategyList env n) ∧
    (∀ xs, regLookup (.list xs) n = none) ∧
    (∀ m, regLookup (.dict m) n = lookupInst m n) ∧
    (env.modules n = none → _instantiate_direct env n = none) ∧
    (∀ mod cls c, env.modules n = some mod → mod.pluginCls = some cls →
        cls.construct = some c →
        _instantiate_direct env n = some (assignNameIfFalsy n (postLoad c))) := by
  refine ⟨?_, fun xs => rfl, fun m => rfl, ?_, ?_⟩
  · cases h9 : _instantiate_direct env n <;>
      simp [_get_plugin_instance, strategyList, firstSome, h9]
  · intro h
    simp [_instantiate_direct, h]
  · intro mod cls c hmod hcls hc
    simp only [_instantiate_direct, hmod, hcls, hc, assignNameIfFalsy, postLoad]
    split <;> rfl

/-- The instance built by the direct-construction module below; its
`name` attribute is initially absent. -/
def instSolo : Instance where
  className := "Plugin"
  nameF := none
  provider := none
  tasksF := .seq ["echo"]
  attrs := fun item => if item = "echo" then .callable echoHandler else .absent

/-- The `Plugin` class of `app.plugins.solo.plugin`: constructing it
succeeds and it has no `load` attribute. -/
def clsSolo : PluginClass := { construct := some { initial := instSolo, loadHook := none } }

/-- An environment with an empty loader but an importable module
`app.plugins.solo.plugin`. -/
def envDirect : Env :=
  { loader := emptyLoader
    modules := fun n => if n = "solo" then some { pluginCls := some clsSolo } else none }

/-- Witness for **C3 (amended)** at concrete loader states. -/
theorem resolution_strategy_order_witness :
    _get_plugin_instance envDirect "solo" = firstSome (strategyList envDirect "solo") ∧
    regLookup (.list [instEcho]) "alpha" = none ∧
    _instantiate_direct envDirect "ghost" = none ∧
    _instantiate_direct envDirect "solo" =
      some (assignNameIfFalsy "solo" (postLoad { initial := instSolo, loadHook := none })) :=
  ⟨(resolution_strategy_order envDirect "solo").1,
   (resolution_strategy_order envDirect "alpha").2.1 [instEcho],
   (resolution_strategy_order envDirect "ghost").2.2.2.1 rfl,
   (resolution_strategy_order envDirect "solo").2.2.2.2
     { pluginCls := some clsSolo } clsSolo { initial := instSolo, loadHook := none }
     rfl rfl rfl⟩

/-- A loader with no attributes and no importable plugin modules. -/
def emptyEnv : Env := { loader := emptyLoader, modules := noModules }

/-- Direct construction reads only the module environment, never the
loader attributes. -/
theorem instantiate_direct_modules (env1 env2 : Env) (n : String)
    (h : env1.modules = env2.modules) :
    _instantiate_direct env1 n = _instantiate_direct env2 n := by
  unfold _instantiate_direct
  rw [h]

/-- **C4.** Resolution never raises: a by-name lookup strategy that
raises behaves exactly as if that strategy were absent (for each of the
four probed lookup attributes), and when every strategy is exhausted the
POST endpoint surfaces 404 with detail `Plugin not found: {n}`. -/
theorem resolution_swallows_and_404 (env : Env) (n t : String) (p : Payload) :
    (∀ f : String → LookupOutcome, f n = .raises →
      _get_plugin_instance { env with loader := { env.loader with get_plugin_instance := .fn f } } n =
      _get_plugin_instance { env with loader := { env.loader with get_plugin_instance := .absent } } n) ∧
    (∀ f : String → LookupOutcome, f n = .raises →
      _get_plugin_instance { env with loader := { env.loader with load_plugin := .fn f } } n =
      _get_plugin_instance { env with loader := { env.loader with load_plugin := .absent } } n) ∧
    (∀ f : String → LookupOutcome, f n = .raises →
      _get_plugin_instance { env with loader := { env.loader with get := .fn f } } n =
      _get_plugin_instance { env with loader := { env.loader with get := .absent } } n) ∧
    (∀ f : String → LookupOutcome, f n = .raises →
      _get_plugin_instance { env with loader := { env.loader with resolve_plugin := .fn f } } n =
      _get_plugin_instance { env with loader := { env.loader with resolve_plugin := .absent } } n) ∧
    (_get_plugin_instance env n = none →
      run_plugin_task env n t p = .httpError 404 ("Plugin not found: " ++ n)) := by
  refine ⟨?_, ?_, ?_, ?_, ?_⟩
  · intro f hf
    unfold _get_plugin_instance
    rw [instantiate_direct_modules
        { env with loader := { env.loader with get_plugin_instance := .fn f } }
        { env with loader := { env.loader with get_plugin_instance := .absent } } n rfl]
    simp [tryLookup, hf]
  · intro f hf
    unfold _get_plugin_instance
    rw [instantiate_direct_modules
        { env with loader := { env.loader with load_plugin := .fn f } }
        { env with loader := { env.loader with load_plugin := .absent } } n rfl]
    simp [tryLookup, hf]
  · intro f hf
    unfold _get_plugin_instance
    rw [instantiate_direct_modules
        { env with loader := { env.loader with get := .fn f } }
        { env with loader := { env.loader with get := .absent } } n rfl]
    simp [tryLookup, hf]
  · intro f hf
    unfold _get_plugin_instance
    rw [instantiate_direct_modules
        { env with loader := { env.loader with resolve_plugin := .fn f } }
        { env with loader := { env.loader with resolve_plugin := .absent } } n rfl]
    simp [tryLookup, hf]
  · intro h
    simp [run_plugin_task, h]

/-- Witness for **C4**: a raising lookup on an otherwise empty loader is
skipped, and `POST /plugins/ghost_plugin/anything` yields the 404. -/
theorem resolution_swallows_and_404_witness :
    (_get_plugin_instance { emptyEnv with loader := { emptyEnv.loader with get_plugin_instance := .fn fun _ => .raises } } "ghost_plugin" =
     _get_plugin_instance { emptyEnv with loader := { emptyEnv.loader with get_plugin_instance := .absent } } "ghost_plugin") ∧
    run_plugin_task emptyEnv "ghost_plugin" "anything" [] =
      .httpError 404 ("Plugin not found: " ++ "ghost_plugin") :=
  ⟨(resolution_swallows_and_404 emptyEnv "ghost_plugin" "anything" []).1 (fun _ => .raises) rfl,
   (resolution_swallows_and_404 emptyEnv "ghost_plugin" "anything" []).2.2.2.2 rfl⟩

/-! ## Enumeration chain (C5) -/

/-- A loader whose first catalog factory returns an empty list while a
registry holds an instance. -/
def envEmptyFactory : Env :=
  { loader := { emptyLoader with
      get_available_plugins := .fn (.list [])
      REGISTRY := .dict [("alpha", instEcho)] }
    modules := noModules }

/-- **C5 counterexample.** A factory that exists and returns an *empty*
list stops the chain: the registry strategy, which would yield an
instance, is never consulted, and the catalog is empty — contrary to the
claim that a strategy yielding nothing does not stop the chain. -/
theorem enumerate_stops_at_empty_factory :
    envEmptyFactory.loader.get_available_plugins = .fn (.list []) ∧
    tryRegistryEnum envEmptyFactory.loader.REGISTRY = some [instEcho] ∧
    _iter_plugin_instances envEmptyFactory = .ok [] :=
  ⟨rfl, rfl, rfl⟩

/-- A loader whose only inventory is a non-empty dict registry. -/
def envRegOnly : Env :=
  { loader := { emptyLoader with REGISTRY := .dict [("alpha", instEcho)] }
    modules := noModules }

/-- **C5 (amended).** `enumerate()` returns the inventory of the first
factory function that returns a collection — *including an empty
`dict`/`list`/`tuple`/`set`, which stops the chain with an empty
catalog*; only for registry attributes and name listings does an empty
inventory let later strategies run; when the factories yield nothing, a
non-empty registry's inventory is returned; and when no strategy yields
anything the catalog is the empty sequence rather than an error. -/
theorem enumeration_strategy_chain (env : Env) :
    (∀ xs, _iter_plugin_instances
        { env with loader := { env.loader with get_available_plugins := .fn (.list xs) } } =
        .ok xs) ∧
    (tryRegistryEnum (.dict ([] : List (String × Instance))) = none) ∧
    (tryRegistryEnum (.list ([] : List Instance)) = none) ∧
    (∀ gpi, tryNames gpi (.fn []) = none) ∧
    (tryFactory env.loader.get_available_plugins = none →
      tryFactory env.loader.list_available_plugins = none →
      tryFactory env.loader.available_plugins = none →
      tryFactory env.loader.get_plugins = none →
      tryFactory env.loader.iter_plugins = none →
      ∀ xs, tryRegistryEnum env.loader.REGISTRY = some xs →
        _iter_plugin_instances env = .ok xs) ∧
    (env.loader.get_available_plugins = .absent →
      env.loader.list_available_plugins = .absent →
      env.loader.available_plugins = .absent →
      env.loader.get_plugins = .absent →
      env.loader.iter_plugins = .absent →
      env.loader.REGISTRY = .absent →
      env.loader.PLUGINS = .absent →
      env.loader.plugins = .absent →
      env.loader.registry = .absent →
      env.loader.get_plugin_names = .absent →
      env.loader.list_plugin_names = .absent →
      env.loader.available_plugin_names = .absent →
      _iter_plugin_instances env = .ok []) := by
  refine ⟨?_, rfl, rfl, fun gpi => rfl, ?_, ?_⟩
  · intro xs
    simp [_iter_plugin_instances, tryFactory]
  · intro h1 h2 h3 h4 h5 xs hreg
    simp [_iter_plugin_instances, h1, h2, h3, h4, h5, hreg]
  · intro h1 h2 h3 h4 h5 h6 h7 h8 h9 h10 h11 h12
    simp [_iter_plugin_instances, tryFactory, tryRegistryEnum, tryNames,
      h1, h2, h3, h4, h5, h6, h7, h8, h9, h10, h11, h12]

/-- Witness for **C5 (amended)** at concrete loader states. -/
theorem enumeration_strategy_chain_witness :
    _iter_plugin_instances
      { emptyEnv with loader := { emptyEnv.loader with get_available_plugins := .fn (.list [instEcho]) } } =
      .ok [instEcho] ∧
    _iter_plugin_instances envRegOnly = .ok [instEcho] ∧
    _iter_plugin_instances emptyEnv = .ok [] :=
  ⟨(enumeration_strategy_chain emptyEnv).1 [instEcho],
   (enumeration_strategy_chain envRegOnly).2.2.2.2.1 rfl rfl rfl rfl rfl [instEcho] rfl,
   (enumeration_strategy_chain emptyEnv).2.2.2.2.2 rfl rfl rfl rfl rfl rfl rfl rfl rfl rfl rfl rfl⟩

/-! ## Lazy proxy behaviour (C6, C7) -/

/-- A `load` on an already-constructed proxy is the identity. -/
theorem load_noop_of_some (svc : ServiceModule) (s : LazyProxy) (i : ServiceImpl)
    (h : s.impl = some i) : s.load svc = s := by
  simp [LazyProxy.load, h]

/-- After `load`, the `_impl` slot holds exactly the implementation
`loadedImpl` describes. -/
theorem load_impl_eq (svc : ServiceModule) (s : LazyProxy) :
    (s.load svc).impl = some (loadedImpl svc s) := by
  cases h : s.impl <;> simp [LazyProxy.load, loadedImpl, h]

/-- `k + 1` consecutive `load` calls collapse to a single one. -/
theorem loadIter_eq_load (svc : ServiceModule) (k : Nat) (s : LazyProxy) :
    loadIter svc (k + 1) s = s.load svc := by
  induction k generalizing s with
  | zero => rfl
  | succ k ih =>
    show loadIter svc (k + 1) (s.load svc) = s.load svc
    rw [ih (s.load svc), load_noop_of_some svc (s.load svc) _ (load_impl_eq svc s)]

/-- The backing service of `text_tools`
(`app.services.text_tools.service.Plugin`, modelled abstractly): it has a
`load` attribute and exposes the two declared tasks. -/
def svcText : ServiceModule :=
  { init := { tasksF := .seq ["arabic_normalize", "spellcheck_ar"], hasLoad := true
              run := fun t _ => .ok (.obj [("task", .str t)]) }
    loaded := { tasksF := .seq ["arabic_normalize", "spellcheck_ar"], hasLoad := true
                run := fun t _ => .ok (.obj [("task", .str t)]) } }

/-- A fresh `text_tools` lazy proxy, as `Plugin.__init__` builds it. -/
def proxyText : LazyProxy :=
  { name := "text_tools", tasks := ["arabic_normalize", "spellcheck_ar"]
    impl := none, constructCount := 0 }

/-- **C6.** On a lazy proxy, attribute access for a name in the proxy's
`tasks` list (and not otherwise defined) yields a callable that first
triggers `load()` — after which the backing implementation is constructed
— then forwards the payload to the identically named method on that
implementation and returns its result unchanged; any other undefined name
signals an unknown-attribute failure carrying the name. -/
theorem proxy_getattr_task_forwarding (svc : ServiceModule) (s : LazyProxy)
    (item : String) (p : Payload) :
    (item ∈ s.tasks →
      LazyProxy.callTask s svc item p =
        .ok (s.load svc, (loadedImpl svc s).run item p)) ∧
    ((s.load svc).impl = some (loadedImpl svc s)) ∧
    (item ∉ s.tasks → LazyProxy.callTask s svc item p = .error item) := by
  refine ⟨?_, load_impl_eq svc s, ?_⟩
  · intro h
    simp [LazyProxy.callTask, h, load_impl_eq svc s, implOrNone]
  · intro h
    simp [LazyProxy.callTask, h]

/-- Witness for **C6**: a declared task forwards after loading, an
undeclared name raises `AttributeError`. -/
theorem proxy_getattr_task_forwarding_witness :
    LazyProxy.callTask proxyText svcText "arabic_normalize" [] =
      .ok (proxyText.load svcText, (loadedImpl svcText proxyText).run "arabic_normalize" []) ∧
    LazyProxy.callTask proxyText svcText "extract_text" [] = .error "extract_text" :=
  ⟨(proxy_getattr_task_forwarding svcText proxyText "arabic_normalize" []).1 (by decide),
   (proxy_getattr_task_forwarding svcText proxyText "extract_text" []).2.2 (by decide)⟩

/-- **C7.** `load()` is idempotent: any sequence of calls constructs the
backing implementation at most once (the construction counter rises by at
most one); when it does construct, it uses the post-`load` state of the
backing implementation exactly when that implementation has a `load`
attribute; and it replaces the proxy's `tasks` with the backing
implementation's only when the proxy's own `tasks` list was empty. -/
theorem proxy_load_idempotent (svc : ServiceModule) (s : LazyProxy) :
    (s.load svc).load svc = s.load svc ∧
    (∀ k, (loadIter svc k s).constructCount ≤ s.constructCount + 1) ∧
    (s.impl = none → svc.init.hasLoad = true → (s.load svc).impl = some svc.loaded) ∧
    (s.impl = none → svc.init.hasLoad = false → (s.load svc).impl = some svc.init) ∧
    (s.tasks ≠ [] → (s.load svc).tasks = s.tasks) ∧
    (s.impl = none → s.tasks = [] → ∀ ts, (loadedImpl svc s).tasksF = .seq ts →
        (s.load svc).tasks = ts) := by
  refine ⟨load_noop_of_some svc (s.load svc) _ (load_impl_eq svc s), ?_, ?_, ?_, ?_, ?_⟩
  · intro k
    cases k with
    | zero => exact Nat.le_succ _
    | succ k =>
      rw [loadIter_eq_load]
      cases h : s.impl with
      | some i => rw [load_noop_of_some svc s i h]; exact Nat.le_succ _
      | none => simp [LazyProxy.load, h]
  · intro h hl
    simp [LazyProxy.load, h, hl]
  · intro h hl
    simp [LazyProxy.load, h, hl]
  · intro h
    cases hi : s.impl with
    | some i => rw [load_noop_of_some svc s i hi]
    | none => simp [LazyProxy.load, hi, List.isEmpty_iff, h]
  · intro hi ht ts hts
    simp [loadedImpl, hi] at hts
    simp [LazyProxy.load, hi, ht, hts]

/-- Witness for **C7** on a fresh `text_tools` proxy: two `load`s equal
one, the construction counter stays at one after two iterated calls, the
backing `load` is honoured, and the non-empty static task list is kept. -/
theorem proxy_load_idempotent_witness :
    (proxyText.load svcText).load svcText = proxyText.load svcText ∧
    (loadIter svcText 2 proxyText).constructCount ≤ proxyText.constructCount + 1 ∧
    (proxyText.load svcText).impl = some svcText.loaded ∧
    (proxyText.load svcText).tasks = proxyText.tasks :=
  ⟨(proxy_load_idempotent svcText proxyText).1,
   (proxy_load_idempotent svcText proxyText).2.1 2,
   (proxy_load_idempotent svcText proxyText).2.2.1 rfl rfl,
   (proxy_load_idempotent svcText proxyText).2.2.2.2.1 (by decide)⟩

/-! ## Infer fallback (C8) -/

/-- **C8.** With no callable attribute named `t` but a callable `infer`,
the dispatcher invokes `infer` on the payload with the task name added
under the reserved key `task` only when absent (an existing `task` entry
is preserved, the payload unchanged), with the same success wrapping and
error normalization as a named-task invocation. -/
theorem infer_fallback_payload (env : Env) (n t : String) (p : Payload)
    (inst : Instance) (f : Payload → ExecResult)
    (hres : _get_plugin_instance env n = some inst)
    (hnc : (inst.attrs t).isCallable = false)
    (hinf : inst.attrs "infer" = .callable f) :
    (run_plugin_task env n t p =
      match f (setdefault p "task" (.str t)) with
      | .ok r => .success (responseBody n t r)
      | .httpExn s d => .httpError s d
      | .exn msg => .httpError 500 ("Infer for '" ++ t ++ "' failed: " ++ msg)) ∧
    (lookupKey p "task" = none →
      setdefault p "task" (.str t) = p ++ [("task", .str t)]) ∧
    (∀ v, lookupKey p "task" = some v → setdefault p "task" (.str t) = p) := by
  refine ⟨?_, ?_, ?_⟩
  · cases hattr : inst.attrs t with
    | callable g => rw [hattr] at hnc; simp [Attr.isCallable] at hnc
    | absent =>
      cases hr : f (setdefault p "task" (.str t)) <;>
        simp [run_plugin_task, hres, hattr, hinf, hr]
    | nonCallable =>
      cases hr : f (setdefault p "task" (.str t)) <;>
        simp [run_plugin_task, hres, hattr, hinf, hr]
  · intro h
    simp [setdefault, h]
  · intro v h
    simp [setdefault, h]

/-- Witness for **C8**: `instBoom` has no `ping` attribute but a raising
`infer`; the forwarded payload gains `task` only when missing. -/
theorem infer_fallback_payload_witness :
    (run_plugin_task envBoom "alpha" "ping" [("x", .num 1)] =
      .httpError 500 ("Infer for '" ++ "ping" ++ "' failed: " ++ "kaput")) ∧
    setdefault [("x", .num 1)] "task" (.str "ping") =
      [("x", .num 1), ("task", .str "ping")] ∧
    setdefault [("task", .str "old")] "task" (.str "ping") = [("task", .str "old")] :=
  ⟨(infer_fallback_payload envBoom "alpha" "ping" [("x", .num 1)] instBoom
      (fun _ => .exn "kaput") rfl rfl rfl).1,
   (infer_fallback_payload envBoom "alpha" "ping" [("x", .num 1)] instBoom
      (fun _ => .exn "kaput") rfl rfl rfl).2.1 rfl,
   (infer_fallback_payload envBoom "alpha" "ping" [("task", .str "old")] instBoom
      (fun _ => .exn "kaput") rfl rfl rfl).2.2 (.str "old") rfl⟩

/-! ## Catalog identity (C9) and the GET/POST lookup split (C10) -/

/-- A second instance serializing to the same name `alpha`. -/
def instEcho2 : Instance where
  className := "Plugin2"
  nameF := some "alpha"
  provider := some "remote"
  tasksF := .seq []
  attrs := fun _ => .absent

/-- A loader whose catalog factory yields two instances that both
serialize to the name `alpha`. -/
def envDup : Env :=
  { loader := { emptyLoader with
      get_available_plugins := .fn (.list [instEcho, instEcho2]) }
    modules := noModules }

/-- **C9 counterexample.** A single strategy's inventory may contain two
instances with the same serialized name; `GET /plugins` then lists that
name twice, contradicting the exactly-once claim. -/
theorem list_plugins_duplicate_names :
    list_plugins envDup = .ok [_serialize_meta instEcho, _serialize_meta instEcho2] ∧
    (_serialize_meta instEcho).name = "alpha" ∧
    (_serialize_meta instEcho2).name = "alpha" ∧
    (([_serialize_meta instEcho, _serialize_meta instEcho2].map PluginMeta.name).count
      "alpha" = 2) :=
  ⟨rfl, rfl, rfl, rfl⟩

/-- **C9 (amended).** For every name `n` carried by some enumerated
instance, `GET /plugins/{n}` returns a descriptor whose `name` equals
`n`, and `n` appears *at least* once in `GET /plugins` — exactly-once
fails because the endpoint applies no de-duplication within the selected
strategy's inventory. -/
theorem get_plugin_name_matches (env : Env) (n : String) (xs : List Instance)
    (i : Instance) (hx : _iter_plugin_instances env = .ok xs) (hi : i ∈ xs)
    (hn : (_serialize_meta i).name = n) :
    (∃ m, get_plugin env n = .ok (.found m) ∧ m.name = n) ∧
    (∃ l, list_plugins env = .ok l ∧ 1 ≤ (l.map PluginMeta.name).count n) := by
  have hfind : (xs.find? fun j => (_serialize_meta j).name = n).isSome := by
    rw [List.find?_isSome]
    exact ⟨i, hi, by simp [hn]⟩
  obtain ⟨j, hj⟩ := Option.isSome_iff_exists.mp hfind
  have hjp : (_serialize_meta j).name = n := by
    have := List.find?_some hj
    simpa using this
  refine ⟨⟨_serialize_meta j, ?_, hjp⟩, ⟨xs.map _serialize_meta, ?_, ?_⟩⟩
  · simp [get_plugin, hx, hj]
  · simp [list_plugins, hx, Except.map]
  · have hmem : n ∈ (xs.map _serialize_meta).map PluginMeta.name := by
      rw [List.mem_map]
      exact ⟨_serialize_meta i, List.mem_map_of_mem _ hi, hn⟩
    exact List.count_pos_iff.mpr hmem

/-- Witness for **C9 (amended)** on the duplicate-name loader state. -/
theorem get_plugin_name_matches_witness :
    (∃ m, get_plugin envDup "alpha" = .ok (.found m) ∧ m.name = "alpha") ∧
    (∃ l, list_plugins envDup = .ok l ∧
      1 ≤ (l.map PluginMeta.name).count "alpha") :=
  get_plugin_name_matches envDup "alpha" [instEcho, instEcho2] instEcho rfl
    (List.mem_cons_self _ _) rfl

/-- **C10.** The GET and POST endpoints use different lookup paths: with
an empty loader but an importable `app.plugins.solo.plugin` module,
`GET /plugins/solo` answers 404 from the (empty) enumeration inventory,
while `POST /plugins/solo/echo` resolves the plugin through the
direct-construction fallback and dispatches the task successfully. -/
theorem get_post_lookup_divergence :
    get_plugin envDirect "solo" = .ok (.notFound 404 ("Plugin not found: " ++ "solo")) ∧
    run_plugin_task envDirect "solo" "echo" [("x", .num 1)] =
      .success (responseBody "solo" "echo" (.str "done")) :=
  ⟨rfl, rfl⟩

end RouterPlugins
